import Mathlib

/-!
Verification of the py-ns client library (transport layer, error mapping,
response dispatch, query-parameter construction, headers, deprecation shims,
resource lifecycle) against a shallow Lean embedding of its source.

Conventions used throughout:
* JSON values (the result of decoding an HTTP body) are modelled by the
  inductive type `Json`; Python `None` corresponds to `Json.null`.
* An HTTP response (the input to the transport layer) is modelled by
  `Response`, carrying the status code, the raw body text and the result of
  attempting to decode the body as JSON (`none` when decoding would raise).
* Python dictionaries holding query parameters are modelled by ordered
  association lists `List (String × PyVal)`; insertion order matches the
  source's insertion order and all keys inserted by the source are distinct.
* Python scalar values placed into query parameter dictionaries are modelled
  by `PyVal`; `PyVal.pynone` models Python `None`.  Floats are only ever
  carried through verbatim by the source, so they are modelled opaquely.
* `datetime` arguments are always serialized with `.isoformat()` in the
  source and `datetime` objects are always truthy, so a datetime argument is
  modelled by the `Option String` holding its isoformat rendering.
-/

/-- A decoded JSON value. Python `None` decodes from and models `null`. -/
inductive Json where
  | null
  | bool (b : Bool)
  | num (n : Int)
  | str (s : String)
  | arr (items : List Json)
  | obj (fields : List (String × Json))

/-- Lookup of a key in a decoded JSON object, modelling Python `dict.get`:
returns the value stored under the key, or `none` when the key is absent.
Objects produced by JSON decoding have distinct keys. -/
def dictGet (fields : List (String × Json)) (key : String) : Option Json :=
  match fields with
  | [] => none
  | (k, v) :: rest => if k = key then some v else dictGet rest key

/-- Python `==` comparison between an optional JSON value (`dict.get` result)
and a string literal: true exactly when the value is that string. -/
def pyEqStr (v : Option Json) (s : String) : Bool :=
  match v with
  | some (Json.str t) => t == s
  | _ => false

/-- An HTTP response as seen by `HttpTransport._handle_response`
(src/py_ns/_base/transport.py).  `text` is the body text (`response.text`;
empty iff `response.content` is empty) and `jsonBody` is the result of
`response.json()` — `none` when the body does not decode as JSON (the call
would raise). -/
structure Response where
  status_code : Nat
  text : String
  jsonBody : Option Json

/-- httpx `response.is_success`: status code in the 2xx range. -/
def Response.is_success (r : Response) : Bool :=
  200 ≤ r.status_code && r.status_code < 300

/-- The error taxonomy of src/py_ns/exceptions.py: `AuthenticationError`,
`NotFoundError`, `RateLimitError`, `ServerError` are the subclasses of the
generic `APIError`. -/
inductive ErrorKind where
  | authentication
  | notFound
  | rateLimit
  | server
  | generic
deriving DecidableEq, Repr

/-- An `APIError` as constructed by the transport: exception kind, the
message passed to the constructor (a Python object, normally a string), and
the HTTP status code stored on the exception. -/
structure APIError where
  kind : ErrorKind
  message : Json
  status_code : Nat

/-- `HttpTransport._extract_error_message`: try to decode the body as JSON;
if the result is a dict, return `data.get("message", response.text)`;
on any failure (no JSON, or JSON that is not a dict) fall back to
`response.text`.  Total by construction — extraction never raises. -/
def extract_error_message (r : Response) : Json :=
  match r.jsonBody with
  | some (Json.obj fields) =>
    match dictGet fields "message" with
    | some v => v
    | none => Json.str r.text
  | _ => Json.str r.text

/-- The status-code match in `HttpTransport._handle_response`: 401/403 →
authentication, 404 → not-found, 429 → rate-limit, ≥500 → server, any other
status reaching the match → generic `APIError`. -/
def status_error_kind (s : Nat) : ErrorKind :=
  if s = 401 ∨ s = 403 then .authentication
  else if s = 404 then .notFound
  else if s = 429 then .rateLimit
  else if 500 ≤ s then .server
  else .generic

/-- Outcome of `HttpTransport._handle_response`: a returned decoded value, a
raised `APIError`, or the JSON decode error raised by `response.json()` on a
successful response whose non-empty body is not valid JSON. -/
inductive HandleResult where
  | ok (value : Json)
  | apiError (e : APIError)
  | decodeError

/-- `HttpTransport._handle_response` (src/py_ns/_base/transport.py lines
47-64): on 2xx, return `None` for an empty body and the decoded body
otherwise; on non-2xx, extract the error message and raise the error fixed
by the status code, carrying the message and the status code. -/
def handle_response (r : Response) : HandleResult :=
  if r.is_success then
    if r.text = "" then .ok Json.null
    else
      match r.jsonBody with
      | some j => .ok j
      | none => .decodeError
  else
    .apiError ⟨status_error_kind r.status_code, extract_error_message r, r.status_code⟩

/-- Claim C1: for every non-2xx response the transport raises an error of
the kind fixed by the status code (401/403 → authentication, 404 →
not-found, 429 → rate-limit, ≥500 → server, other ≥400 → generic) carrying
the extracted message and that status code, and never returns a value. -/
theorem transport_error_mapping (r : Response) (h : r.is_success = false) :
    (∀ v, handle_response r ≠ .ok v) ∧
    handle_response r =
      .apiError ⟨status_error_kind r.status_code, extract_error_message r, r.status_code⟩ ∧
    ((r.status_code = 401 ∨ r.status_code = 403) →
      status_error_kind r.status_code = .authentication) ∧
    (r.status_code = 404 → status_error_kind r.status_code = .notFound) ∧
    (r.status_code = 429 → status_error_kind r.status_code = .rateLimit) ∧
    (500 ≤ r.status_code → status_error_kind r.status_code = .server) ∧
    (400 ≤ r.status_code → r.status_code < 500 →
      r.status_code ≠ 401 → r.status_code ≠ 403 →
      r.status_code ≠ 404 → r.status_code ≠ 429 →
      status_error_kind r.status_code = .generic) := by
  refine ⟨?_, ?_, ?_, ?_, ?_, ?_, ?_⟩
  · intro v hv
    simp [handle_response, h] at hv
  · simp [handle_response, h]
  · rintro (h1 | h1) <;> simp [status_error_kind, h1]
  · intro h1
    simp [status_error_kind, h1]
  · intro h1
    simp [status_error_kind, h1]
  · intro h1
    have e1 : r.status_code ≠ 404 := by omega
    have e2 : r.status_code ≠ 429 := by omega
    have h2 : ¬(r.status_code = 401 ∨ r.status_code = 403) := by omega
    simp [status_error_kind, h2, e1, e2, h1]
  · intro h1 h2 h3 h4 h5 h6
    have h7 : ¬(r.status_code = 401 ∨ r.status_code = 403) := by omega
    have h8 : ¬(500 ≤ r.status_code) := by omega
    simp [status_error_kind, h7, h5, h6, h8]

/-- Witness for C1: a concrete 404 response with a non-JSON body. -/
theorem transport_error_mapping_witness :
    (Response.mk 404 "missing" none).is_success = false ∧
    handle_response (Response.mk 404 "missing" none) =
      .apiError ⟨.notFound, Json.str "missing", 404⟩ := by
  refine ⟨rfl, ?_⟩
  have h := (transport_error_mapping (Response.mk 404 "missing" none) rfl).2.1
  simpa [status_error_kind, extract_error_message, dictGet] using h

/-- Claim C10: response handling is total over all non-2xx statuses, not only
those ≥400: any non-2xx status outside the mapping table (for example 304)
raises the generic `APIError` carrying the extracted message and the status
code, and no non-2xx response is ever returned as a value. -/
theorem transport_non2xx_total (r : Response) (h : r.is_success = false)
    (h1 : r.status_code ≠ 401) (h2 : r.status_code ≠ 403)
    (h3 : r.status_code ≠ 404) (h4 : r.status_code ≠ 429)
    (h5 : r.status_code < 500) :
    handle_response r = .apiError ⟨.generic, extract_error_message r, r.status_code⟩ ∧
    (∀ v, handle_response r ≠ .ok v) := by
  constructor
  · have hk : status_error_kind r.status_code = .generic := by
      have h7 : ¬(r.status_code = 401 ∨ r.status_code = 403) := by omega
      simp [status_error_kind, h7, h3, h4]
      omega
    simp [handle_response, h, hk]
  · intro v hv
    simp [handle_response, h] at hv

/-- Witness for C10: a concrete 304 response (a non-2xx status below 400)
is mapped to the generic error carrying its body text and status code. -/
theorem transport_non2xx_total_witness :
    handle_response (Response.mk 304 "Not Modified" none) =
      .apiError ⟨.generic, Json.str "Not Modified", 304⟩ := by
  have h := (transport_non2xx_total (Response.mk 304 "Not Modified" none)
    rfl (by decide) (by decide) (by decide) (by decide) (by decide)).1
  simpa [extract_error_message] using h

/-- Claim C6: the message attached to a raised error equals the `message`
field of the body when the body decodes as a JSON object containing that
field, and equals the raw response text when the body is not JSON, is not an
object, or lacks the field; extraction is total (never raises), and the
error raised on a non-2xx response carries exactly the extracted message. -/
theorem error_message_extraction (r : Response) :
    (∀ fields v, r.jsonBody = some (Json.obj fields) →
      dictGet fields "message" = some v → extract_error_message r = v) ∧
    (∀ fields, r.jsonBody = some (Json.obj fields) →
      dictGet fields "message" = none → extract_error_message r = Json.str r.text) ∧
    ((∀ fields, r.jsonBody ≠ some (Json.obj fields)) →
      extract_error_message r = Json.str r.text) ∧
    (r.is_success = false →
      ∃ e, handle_response r = .apiError e ∧ e.message = extract_error_message r) := by
  refine ⟨?_, ?_, ?_, ?_⟩
  · intro fields v hb hm
    simp [extract_error_message, hb, hm]
  · intro fields hb hm
    simp [extract_error_message, hb, hm]
  · intro hb
    match hj : r.jsonBody with
    | none => simp [extract_error_message, hj]
    | some Json.null => simp [extract_error_message, hj]
    | some (Json.bool b) => simp [extract_error_message, hj]
    | some (Json.num n) => simp [extract_error_message, hj]
    | some (Json.str s) => simp [extract_error_message, hj]
    | some (Json.arr items) => simp [extract_error_message, hj]
    | some (Json.obj fields) => exact absurd hj (hb fields)
  · intro h
    refine ⟨⟨status_error_kind r.status_code, extract_error_message r, r.status_code⟩, ?_, rfl⟩
    simp [handle_response, h]

/-- Witness for C6: a 400 response with body equal to the JSON object with
message field "X" yields message "X"; a 500 response with non-JSON body "Y"
yields message "Y". -/
theorem error_message_extraction_witness :
    extract_error_message
      (Response.mk 400 "ignored" (some (Json.obj [("message", Json.str "X")]))) =
      Json.str "X" ∧
    extract_error_message (Response.mk 500 "Y" none) = Json.str "Y" := by
  constructor
  · exact (error_message_extraction
      (Response.mk 400 "ignored" (some (Json.obj [("message", Json.str "X")])))).1
      [("message", Json.str "X")] (Json.str "X") rfl rfl
  · exact (error_message_extraction (Response.mk 500 "Y" none)).2.2.1
      (fun fields h => by simp at h)

/-- Claim C7: on every 2xx response the transport returns the explicit
no-content marker (Python `None`, modelled `Json.null`, distinct from an
empty object and an empty list) when the body is empty, and otherwise
returns the decoded body unchanged; it never raises an `APIError` on a 2xx
response, and with a decodable body it raises nothing at all. -/
theorem transport_success_handling (r : Response) (h : r.is_success = true) :
    (r.text = "" → handle_response r = .ok Json.null) ∧
    Json.null ≠ Json.obj [] ∧ Json.null ≠ Json.arr [] ∧
    (∀ j, r.jsonBody = some j → r.text ≠ "" → handle_response r = .ok j) ∧
    (∀ e, handle_response r ≠ .apiError e) ∧
    (r.text = "" ∨ r.jsonBody.isSome → handle_response r ≠ .decodeError) := by
  refine ⟨?_, ?_, ?_, ?_, ?_, ?_⟩
  · intro ht
    simp [handle_response, h, ht]
  · intro hc
    cases hc
  · intro hc
    cases hc
  · intro j hj ht
    simp [handle_response, h, ht, hj]
  · intro e he
    by_cases ht : r.text = ""
    · simp [handle_response, h, ht] at he
    · match hj : r.jsonBody with
      | some j => simp [handle_response, h, ht, hj] at he
      | none => simp [handle_response, h, ht, hj] at he
  · rintro (ht | hj) hd
    · simp [handle_response, h, ht] at hd
    · match hb : r.jsonBody with
      | some j => simp [handle_response, h, hb] at hd; split at hd <;> simp_all
      | none => rw [hb] at hj; cases hj

/-- Witness for C7: a concrete 204-style empty-body success returns the
no-content marker; a concrete 200 with decoded body returns it unchanged. -/
theorem transport_success_handling_witness :
    handle_response (Response.mk 204 "" none) = .ok Json.null ∧
    handle_response (Response.mk 200 "[]" (some (Json.arr []))) = .ok (Json.arr []) := by
  constructor
  · exact (transport_success_handling (Response.mk 204 "" none) rfl).1 rfl
  · exact (transport_success_handling (Response.mk 200 "[]" (some (Json.arr []))) rfl).2.2.2.1
      (Json.arr []) rfl (by decide)

/-- A raw API response item handed to the disruption dispatcher: a decoded
JSON object (Python dict). -/
abbrev RawItem := List (String × Json)

/-- The result of dispatching one raw item in `_parse_item`
(src/py_ns/api/disruptions.py).  The concrete model shapes (`Calamity`,
`Disruption`) live in py_ns/models (a fixed external schema contract); a
dispatched item records which model validator the dispatcher applied,
carrying the raw item it was applied to. -/
inductive ParsedDisruption where
  | calamity (raw : RawItem)
  | disruption (raw : RawItem)

/-- True when the dispatcher chose the Calamity validator. -/
def ParsedDisruption.isCalamity : ParsedDisruption → Bool
  | .calamity _ => true
  | .disruption _ => false

/-- `_parse_item` (src/py_ns/api/disruptions.py lines 15-19): if
`item.get("type") == "CALAMITY"` validate as Calamity, otherwise validate
as Disruption. -/
def parse_item (item : RawItem) : ParsedDisruption :=
  if pyEqStr (dictGet item "type") "CALAMITY" then .calamity item
  else .disruption item

/-- `DisruptionsAPI.list` result conversion (src/py_ns/api/disruptions.py
line 53): each element of the response list is dispatched independently via
`_parse_item`, in order. -/
def parse_disruption_list (data : List RawItem) : List ParsedDisruption :=
  data.map parse_item

/-- Claim C4: an item whose `type` field equals "CALAMITY" is validated as a
Calamity and any other item as a Disruption; a list is dispatched
elementwise preserving input order (a Disruption-shaped item followed by a
CALAMITY-tagged item yields exactly [Disruption, Calamity]); and the
dispatch decision is a function of the discriminator alone, read before any
structural validation. -/
theorem disruption_dispatch (item d c : RawItem) (data : List RawItem) :
    (pyEqStr (dictGet item "type") "CALAMITY" = true → parse_item item = .calamity item) ∧
    (pyEqStr (dictGet item "type") "CALAMITY" = false → parse_item item = .disruption item) ∧
    (parse_disruption_list data).length = data.length ∧
    (∀ i : Nat, (parse_disruption_list data)[i]? = (data[i]?).map parse_item) ∧
    (pyEqStr (dictGet d "type") "CALAMITY" = false →
      pyEqStr (dictGet c "type") "CALAMITY" = true →
      parse_disruption_list [d, c] = [.disruption d, .calamity c]) ∧
    (∀ item2 : RawItem, dictGet item "type" = dictGet item2 "type" →
      (parse_item item).isCalamity = (parse_item item2).isCalamity) := by
  refine ⟨?_, ?_, ?_, ?_, ?_, ?_⟩
  · intro ht
    simp [parse_item, ht]
  · intro ht
    simp [parse_item, ht]
  · simp [parse_disruption_list]
  · intro i
    simp [parse_disruption_list, List.getElem?_map]
  · intro hd hc
    simp [parse_disruption_list, parse_item, hd, hc]
  · intro item2 htype
    by_cases ht : pyEqStr (dictGet item "type") "CALAMITY" = true <;>
      simp [parse_item, ht, ← htype, ParsedDisruption.isCalamity]

/-- Witness for C4: a concrete Disruption-shaped item followed by a concrete
CALAMITY-tagged item dispatches, in order, to [Disruption, Calamity]. -/
theorem disruption_dispatch_witness :
    parse_disruption_list
      [[("id", Json.str "d1"), ("type", Json.str "MAINTENANCE")],
       [("id", Json.str "c1"), ("type", Json.str "CALAMITY")]] =
      [.disruption [("id", Json.str "d1"), ("type", Json.str "MAINTENANCE")],
       .calamity [("id", Json.str "c1"), ("type", Json.str "CALAMITY")]] := by
  exact (disruption_dispatch [] [("id", Json.str "d1"), ("type", Json.str "MAINTENANCE")]
    [("id", Json.str "c1"), ("type", Json.str "CALAMITY")] []).2.2.2.2.1 rfl rfl

/-- An opaque Python float: the endpoint modules only ever pass floats
through verbatim into query parameters, so floats are modelled by their
textual rendering and never interpreted. -/
structure PyFloat where
  val : String
deriving DecidableEq, Repr

/-- A Python value stored in a query-parameter dictionary by the endpoint
modules.  `pynone` models Python `None`. -/
inductive PyVal where
  | pynone
  | str (s : String)
  | int (n : Int)
  | bool (b : Bool)
  | float (x : PyFloat)
  | strList (l : List String)
deriving DecidableEq, Repr

/-- A query-parameter dictionary in insertion order. -/
abbrev Params := List (String × PyVal)

/-- The keys of a parameter dictionary. -/
def paramKeys (ps : Params) : List String := ps.map Prod.fst

/-- The helper `_set` (src/py_ns/api/travel.py lines 777-780): add the
key/value pair only when the value is not `None`. -/
def set_param (ps : Params) (k : String) (v : PyVal) : Params :=
  if v = .pynone then ps else ps ++ [(k, v)]

/-- A sequence of `_set` calls on an initially empty dictionary, in source
order.  Entries whose keys were already present would be overwritten, but
every builder in the source uses pairwise-distinct keys. -/
def build_params (entries : List (String × PyVal)) : Params :=
  entries.foldl (fun ps e => set_param ps e.1 e.2) []

/-- The entries a sequence of `_set` calls keeps: those whose value is not
`None`. -/
def keepFilter (ps : List (String × PyVal)) : List (String × PyVal) :=
  ps.filter fun e => !decide (e.2 = PyVal.pynone)

theorem build_params_go (ps : Params) (entries : List (String × PyVal)) :
    entries.foldl (fun ps e => set_param ps e.1 e.2) ps = ps ++ keepFilter entries := by
  induction entries generalizing ps with
  | nil => simp [keepFilter]
  | cons e es ih =>
    rw [List.foldl_cons, ih]
    by_cases h : e.2 = PyVal.pynone <;>
      simp [keepFilter, List.filter_cons, h, set_param]

theorem build_params_eq (entries : List (String × PyVal)) :
    build_params entries = keepFilter entries := by
  simpa using build_params_go [] entries

/-- Every entry surviving a sequence of `_set` calls has a non-`None`
value. -/
theorem build_params_clean (entries : List (String × PyVal)) :
    ∀ e ∈ build_params entries, ¬ e.2 = PyVal.pynone := by
  intro e he
  rw [build_params_eq] at he
  simpa using List.of_mem_filter he

/-- Conversion of an optional Python argument to the value handed to `_set`:
`None` stays `None`, anything else is embedded by `f`. -/
def pyOfOpt {α : Type} (f : α → PyVal) : Option α → PyVal
  | none => .pynone
  | some x => f x

/-- The contribution of one optional parameter to the final dictionary:
nothing when unset, one entry when set. -/
def optEntry (k : String) (v : Option PyVal) : Params :=
  match v with
  | none => []
  | some x => [(k, x)]

theorem keepFilter_nil : keepFilter [] = [] := rfl

theorem keep_cons_str (k : String) (x : Option String) (rest : List (String × PyVal)) :
    keepFilter ((k, pyOfOpt .str x) :: rest) = optEntry k (x.map .str) ++ keepFilter rest := by
  cases x <;> simp [keepFilter, pyOfOpt, optEntry, List.filter_cons]

theorem keep_cons_int (k : String) (x : Option Int) (rest : List (String × PyVal)) :
    keepFilter ((k, pyOfOpt .int x) :: rest) = optEntry k (x.map .int) ++ keepFilter rest := by
  cases x <;> simp [keepFilter, pyOfOpt, optEntry, List.filter_cons]

theorem keep_cons_bool (k : String) (x : Option Bool) (rest : List (String × PyVal)) :
    keepFilter ((k, pyOfOpt .bool x) :: rest) = optEntry k (x.map .bool) ++ keepFilter rest := by
  cases x <;> simp [keepFilter, pyOfOpt, optEntry, List.filter_cons]

theorem keep_cons_float (k : String) (x : Option PyFloat) (rest : List (String × PyVal)) :
    keepFilter ((k, pyOfOpt .float x) :: rest) = optEntry k (x.map .float) ++ keepFilter rest := by
  cases x <;> simp [keepFilter, pyOfOpt, optEntry, List.filter_cons]

theorem keep_cons_strList (k : String) (x : Option (List String)) (rest : List (String × PyVal)) :
    keepFilter ((k, pyOfOpt .strList x) :: rest) =
      optEntry k (x.map .strList) ++ keepFilter rest := by
  cases x <;> simp [keepFilter, pyOfOpt, optEntry, List.filter_cons]

theorem keep_cons_truthyBool (k : String) (c : Bool) (rest : List (String × PyVal)) :
    keepFilter ((k, if c then PyVal.bool true else .pynone) :: rest) =
      optEntry k (if c then some (PyVal.bool true) else none) ++ keepFilter rest := by
  cases c <;> simp [keepFilter, optEntry, List.filter_cons]

theorem keep_cons_strVal (k s : String) (rest : List (String × PyVal)) :
    keepFilter ((k, PyVal.str s) :: rest) = (k, PyVal.str s) :: keepFilter rest := by
  simp [keepFilter, List.filter_cons]

theorem keep_cons_intVal (k : String) (n : Int) (rest : List (String × PyVal)) :
    keepFilter ((k, PyVal.int n) :: rest) = (k, PyVal.int n) :: keepFilter rest := by
  simp [keepFilter, List.filter_cons]

theorem keep_cons_boolVal (k : String) (b : Bool) (rest : List (String × PyVal)) :
    keepFilter ((k, PyVal.bool b) :: rest) = (k, PyVal.bool b) :: keepFilter rest := by
  simp [keepFilter, List.filter_cons]

theorem paramKeys_append (a b : Params) :
    paramKeys (a ++ b) = paramKeys a ++ paramKeys b := List.map_append _ _ _

theorem paramKeys_cons (e : String × PyVal) (ps : Params) :
    paramKeys (e :: ps) = e.1 :: paramKeys ps := rfl

theorem mem_paramKeys_optEntry {k' k : String} {v : Option PyVal} :
    k' ∈ paramKeys (optEntry k v) ↔ v.isSome ∧ k' = k := by
  cases v <;> simp [optEntry, paramKeys]

theorem mem_optEntry_map {α : Type} {f : α → PyVal} {k : String} {x : Option α}
    {e : String × PyVal} (h : e ∈ optEntry k (x.map f)) :
    ∃ a, x = some a ∧ e = (k, f a) := by
  cases x with
  | none => simp [optEntry] at h
  | some a =>
    simp [optEntry] at h
    exact ⟨a, rfl, by simp [h]⟩

/-- The keyword arguments of `TravelAPI.plan_trip` (src/py_ns/api/travel.py
lines 168-230) that feed the query dictionary, in signature order.  The
`authorization` argument feeds a header, not the query, and is modelled
separately.  `search_for_arrival` has a plain boolean default (`False`), not
a `None` sentinel. -/
structure PlanTripArgs where
  from_station : Option String
  to_station : Option String
  origin_uic_code : Option String
  origin_lat : Option PyFloat
  origin_lng : Option PyFloat
  origin_name : Option String
  destination_uic_code : Option String
  destination_lat : Option PyFloat
  destination_lng : Option PyFloat
  destination_name : Option String
  via_station : Option String
  via_uic_code : Option String
  via_lat : Option PyFloat
  via_lng : Option PyFloat
  via_wait_time : Option Int
  date_time : Option String
  search_for_arrival : Bool
  language : Option String
  context : Option String
  add_change_time : Option Int
  passing : Option Bool
  local_trains_only : Option Bool
  exclude_high_speed_trains : Option Bool
  exclude_trains_with_reservation_required : Option Bool
  travel_request_type : Option String
  filter_transport_mode : Option String
  disabled_transport_modalities : Option (List String)
  origin_walk : Option Bool
  origin_bike : Option Bool
  origin_car : Option Bool
  destination_walk : Option Bool
  destination_bike : Option Bool
  destination_car : Option Bool
  first_mile_modality : Option String
  last_mile_modality : Option String
  entire_trip_modality : Option String
  travel_assistance : Option Bool
  search_for_accessible_trip : Option Bool
  accessibility_equipment1 : Option String
  accessibility_equipment2 : Option String
  product : Option String
  discount : Option String
  travel_class : Option Int
  nsr : Option Int
  departure : Option Bool
  shorter_change : Option Bool
  minimal_change_time : Option Int
  origin_accessible : Option Bool
  travel_assistance_transfer_time : Option Int

/-- The query dictionary built by `TravelAPI.plan_trip` (src/py_ns/api/
travel.py lines 325-375): one `_set` call per parameter, in source order.
The `searchForArrival` value models `search_for_arrival or None` (Python
truthiness: `False or None` is `None`); `dateTime` models
`date_time.isoformat() if date_time else None`. -/
def plan_trip_params (a : PlanTripArgs) : Params :=
  build_params [
    ("fromStation", pyOfOpt .str a.from_station),
    ("toStation", pyOfOpt .str a.to_station),
    ("originUicCode", pyOfOpt .str a.origin_uic_code),
    ("originLat", pyOfOpt .float a.origin_lat),
    ("originLng", pyOfOpt .float a.origin_lng),
    ("originName", pyOfOpt .str a.origin_name),
    ("destinationUicCode", pyOfOpt .str a.destination_uic_code),
    ("destinationLat", pyOfOpt .float a.destination_lat),
    ("destinationLng", pyOfOpt .float a.destination_lng),
    ("destinationName", pyOfOpt .str a.destination_name),
    ("viaStation", pyOfOpt .str a.via_station),
    ("viaUicCode", pyOfOpt .str a.via_uic_code),
    ("viaLat", pyOfOpt .float a.via_lat),
    ("viaLng", pyOfOpt .float a.via_lng),
    ("viaWaitTime", pyOfOpt .int a.via_wait_time),
    ("dateTime", pyOfOpt .str a.date_time),
    ("searchForArrival", if a.search_for_arrival then PyVal.bool true else .pynone),
    ("lang", pyOfOpt .str a.language),
    ("context", pyOfOpt .str a.context),
    ("addChangeTime", pyOfOpt .int a.add_change_time),
    ("passing", pyOfOpt .bool a.passing),
    ("localTrainsOnly", pyOfOpt .bool a.local_trains_only),
    ("excludeHighSpeedTrains", pyOfOpt .bool a.exclude_high_speed_trains),
    ("excludeTrainsWithReservationRequired",
      pyOfOpt .bool a.exclude_trains_with_reservation_required),
    ("travelRequestType", pyOfOpt .str a.travel_request_type),
    ("filterTransportMode", pyOfOpt .str a.filter_transport_mode),
    ("disabledTransportModalities", pyOfOpt .strList a.disabled_transport_modalities),
    ("originWalk", pyOfOpt .bool a.origin_walk),
    ("originBike", pyOfOpt .bool a.origin_bike),
    ("originCar", pyOfOpt .bool a.origin_car),
    ("destinationWalk", pyOfOpt .bool a.destination_walk),
    ("destinationBike", pyOfOpt .bool a.destination_bike),
    ("destinationCar", pyOfOpt .bool a.destination_car),
    ("firstMileModality", pyOfOpt .str a.first_mile_modality),
    ("lastMileModality", pyOfOpt .str a.last_mile_modality),
    ("entireTripModality", pyOfOpt .str a.entire_trip_modality),
    ("travelAssistance", pyOfOpt .bool a.travel_assistance),
    ("searchForAccessibleTrip", pyOfOpt .bool a.search_for_accessible_trip),
    ("accessibilityEquipment1", pyOfOpt .str a.accessibility_equipment1),
    ("accessibilityEquipment2", pyOfOpt .str a.accessibility_equipment2),
    ("product", pyOfOpt .str a.product),
    ("discount", pyOfOpt .str a.discount),
    ("travelClass", pyOfOpt .int a.travel_class),
    ("nsr", pyOfOpt .int a.nsr),
    ("departure", pyOfOpt .bool a.departure),
    ("shorterChange", pyOfOpt .bool a.shorter_change),
    ("minimalChangeTime", pyOfOpt .int a.minimal_change_time),
    ("originAccessible", pyOfOpt .bool a.origin_accessible),
    ("travelAssistanceTransferTime", pyOfOpt .int a.travel_assistance_transfer_time)]

/-- Closed form of the plan_trip query dictionary: the concatenation of one
optional entry per parameter, in source order. -/
theorem plan_trip_params_eq (a : PlanTripArgs) :
    plan_trip_params a =
    optEntry "fromStation" (a.from_station.map .str) ++
    optEntry "toStation" (a.to_station.map .str) ++
    optEntry "originUicCode" (a.origin_uic_code.map .str) ++
    optEntry "originLat" (a.origin_lat.map .float) ++
    optEntry "originLng" (a.origin_lng.map .float) ++
    optEntry "originName" (a.origin_name.map .str) ++
    optEntry "destinationUicCode" (a.destination_uic_code.map .str) ++
    optEntry "destinationLat" (a.destination_lat.map .float) ++
    optEntry "destinationLng" (a.destination_lng.map .float) ++
    optEntry "destinationName" (a.destination_name.map .str) ++
    optEntry "viaStation" (a.via_station.map .str) ++
    optEntry "viaUicCode" (a.via_uic_code.map .str) ++
    optEntry "viaLat" (a.via_lat.map .float) ++
    optEntry "viaLng" (a.via_lng.map .float) ++
    optEntry "viaWaitTime" (a.via_wait_time.map .int) ++
    optEntry "dateTime" (a.date_time.map .str) ++
    optEntry "searchForArrival"
      (if a.search_for_arrival then some (PyVal.bool true) else none) ++
    optEntry "lang" (a.language.map .str) ++
    optEntry "context" (a.context.map .str) ++
    optEntry "addChangeTime" (a.add_change_time.map .int) ++
    optEntry "passing" (a.passing.map .bool) ++
    optEntry "localTrainsOnly" (a.local_trains_only.map .bool) ++
    optEntry "excludeHighSpeedTrains" (a.exclude_high_speed_trains.map .bool) ++
    optEntry "excludeTrainsWithReservationRequired"
      (a.exclude_trains_with_reservation_required.map .bool) ++
    optEntry "travelRequestType" (a.travel_request_type.map .str) ++
    optEntry "filterTransportMode" (a.filter_transport_mode.map .str) ++
    optEntry "disabledTransportModalities"
      (a.disabled_transport_modalities.map .strList) ++
    optEntry "originWalk" (a.origin_walk.map .bool) ++
    optEntry "originBike" (a.origin_bike.map .bool) ++
    optEntry "originCar" (a.origin_car.map .bool) ++
    optEntry "destinationWalk" (a.destination_walk.map .bool) ++
    optEntry "destinationBike" (a.destination_bike.map .bool) ++
    optEntry "destinationCar" (a.destination_car.map .bool) ++
    optEntry "firstMileModality" (a.first_mile_modality.map .str) ++
    optEntry "lastMileModality" (a.last_mile_modality.map .str) ++
    optEntry "entireTripModality" (a.entire_trip_modality.map .str) ++
    optEntry "travelAssistance" (a.travel_assistance.map .bool) ++
    optEntry "searchForAccessibleTrip" (a.search_for_accessible_trip.map .bool) ++
    optEntry "accessibilityEquipment1" (a.accessibility_equipment1.map .str) ++
    optEntry "accessibilityEquipment2" (a.accessibility_equipment2.map .str) ++
    optEntry "product" (a.product.map .str) ++
    optEntry "discount" (a.discount.map .str) ++
    optEntry "travelClass" (a.travel_class.map .int) ++
    optEntry "nsr" (a.nsr.map .int) ++
    optEntry "departure" (a.departure.map .bool) ++
    optEntry "shorterChange" (a.shorter_change.map .bool) ++
    optEntry "minimalChangeTime" (a.minimal_change_time.map .int) ++
    optEntry "originAccessible" (a.origin_accessible.map .bool) ++
    optEntry "travelAssistanceTransferTime"
      (a.travel_assistance_transfer_time.map .int) := by
  simp only [plan_trip_params, build_params_eq, keep_cons_str, keep_cons_int,
    keep_cons_bool, keep_cons_float, keep_cons_strList, keep_cons_truthyBool,
    keepFilter_nil, List.append_nil, List.append_assoc]

/-- The query dictionary built by `TravelAPI.get_journey` (src/py_ns/api/
travel.py lines 121-162): `omitCrowdForecast` is inserted unconditionally
with the value of the boolean-defaulted `omit_crowd_forecast` argument; the
remaining parameters are inserted under an `is not None` guard. -/
def get_journey_params (train : Option Int) (journey_id : Option String)
    (date_time : Option String) (departure_uic_code : Option String)
    (transfer_uic_code : Option String) (arrival_uic_code : Option String)
    (omit_crowd_forecast : Bool) : Params :=
  let ps : Params := [("omitCrowdForecast", .bool omit_crowd_forecast)]
  let ps := match train with | none => ps | some t => ps ++ [("train", .int t)]
  let ps := match journey_id with | none => ps | some j => ps ++ [("id", .str j)]
  let ps := match date_time with | none => ps | some d => ps ++ [("dateTime", .str d)]
  let ps := match departure_uic_code with
    | none => ps | some c => ps ++ [("departureUicCode", .str c)]
  let ps := match transfer_uic_code with
    | none => ps | some c => ps ++ [("transferUicCode", .str c)]
  let ps := match arrival_uic_code with
    | none => ps | some c => ps ++ [("arrivalUicCode", .str c)]
  ps

/-- Closed form of the get_journey query dictionary. -/
theorem get_journey_params_eq (train : Option Int)
    (journey_id date_time departure_uic_code transfer_uic_code arrival_uic_code :
      Option String) (omit_crowd_forecast : Bool) :
    get_journey_params train journey_id date_time departure_uic_code
      transfer_uic_code arrival_uic_code omit_crowd_forecast =
    ("omitCrowdForecast", PyVal.bool omit_crowd_forecast) ::
    (optEntry "train" (train.map .int) ++
     optEntry "id" (journey_id.map .str) ++
     optEntry "dateTime" (date_time.map .str) ++
     optEntry "departureUicCode" (departure_uic_code.map .str) ++
     optEntry "transferUicCode" (transfer_uic_code.map .str) ++
     optEntry "arrivalUicCode" (arrival_uic_code.map .str)) := by
  cases train <;> cases journey_id <;> cases date_time <;> cases departure_uic_code <;>
    cases transfer_uic_code <;> cases arrival_uic_code <;> rfl

/-- The query dictionary built by `StationsAPI.list_v2` (src/py_ns/api/
stations.py lines 25-53): every parameter is optional with a `None`
sentinel and inserted under an `is not None` guard. -/
def stations_list_v2_params (query : Option String) (country_codes : Option String)
    (include_non_plannable : Option Bool) (limit : Option Int) : Params :=
  let ps : Params := []
  let ps := match query with | none => ps | some q => ps ++ [("q", .str q)]
  let ps := match country_codes with
    | none => ps | some c => ps ++ [("countryCodes", .str c)]
  let ps := match include_non_plannable with
    | none => ps | some b => ps ++ [("includeNonPlannableStations", .bool b)]
  let ps := match limit with | none => ps | some n => ps ++ [("limit", .int n)]
  ps

/-- Closed form of the list_v2 query dictionary. -/
theorem stations_list_v2_params_eq (query country_codes : Option String)
    (include_non_plannable : Option Bool) (limit : Option Int) :
    stations_list_v2_params query country_codes include_non_plannable limit =
    optEntry "q" (query.map .str) ++
    optEntry "countryCodes" (country_codes.map .str) ++
    optEntry "includeNonPlannableStations" (include_non_plannable.map .bool) ++
    optEntry "limit" (limit.map .int) := by
  cases query <;> cases country_codes <;> cases include_non_plannable <;>
    cases limit <;> rfl

/-- The query dictionary built by `DisruptionsAPI.list` (src/py_ns/api/
disruptions.py lines 42-46).  The `type` value models
`disruption_type.value`, the wire string of the enum member. -/
def disruptions_list_params (is_active : Option Bool)
    (disruption_type : Option String) : Params :=
  let ps : Params := []
  let ps := match is_active with | none => ps | some b => ps ++ [("isActive", .bool b)]
  let ps := match disruption_type with | none => ps | some t => ps ++ [("type", .str t)]
  ps

/-- Closed form of the DisruptionsAPI.list query dictionary. -/
theorem disruptions_list_params_eq (is_active : Option Bool)
    (disruption_type : Option String) :
    disruptions_list_params is_active disruption_type =
    optEntry "isActive" (is_active.map .bool) ++
    optEntry "type" (disruption_type.map .str) := by
  cases is_active <;> cases disruption_type <;> rfl

/-- The query dictionary built by `TravelAPI.get_trip` (src/py_ns/api/
travel.py lines 384-432): `ctxRecon` and `travelRequestType` are always
present; the rest goes through `_set`.  `date` models
`date.isoformat() if date else None` and `sourceCtxRecon` is the deprecated
boolean parameter, passed through verbatim when supplied. -/
def get_trip_params (ctx_recon : String) (date : Option String)
    (travel_request_type : String) (product discount : Option String)
    (travel_class nsr : Option Int) (source_ctx_recon : Option Bool) : Params :=
  build_params [
    ("ctxRecon", PyVal.str ctx_recon),
    ("travelRequestType", PyVal.str travel_request_type),
    ("date", pyOfOpt .str date),
    ("product", pyOfOpt .str product),
    ("discount", pyOfOpt .str discount),
    ("travelClass", pyOfOpt .int travel_class),
    ("nsr", pyOfOpt .int nsr),
    ("sourceCtxRecon", pyOfOpt .bool source_ctx_recon)]

/-- Closed form of the get_trip query dictionary. -/
theorem get_trip_params_eq (ctx_recon : String) (date : Option String)
    (travel_request_type : String) (product discount : Option String)
    (travel_class nsr : Option Int) (source_ctx_recon : Option Bool) :
    get_trip_params ctx_recon date travel_request_type product discount
      travel_class nsr source_ctx_recon =
    ("ctxRecon", PyVal.str ctx_recon) :: ("travelRequestType", PyVal.str travel_request_type) ::
    (optEntry "date" (date.map .str) ++
     optEntry "product" (product.map .str) ++
     optEntry "discount" (discount.map .str) ++
     optEntry "travelClass" (travel_class.map .int) ++
     optEntry "nsr" (nsr.map .int) ++
     optEntry "sourceCtxRecon" (source_ctx_recon.map .bool)) := by
  simp only [get_trip_params, build_params_eq, keep_cons_strVal, keep_cons_str,
    keep_cons_int, keep_cons_bool, keepFilter_nil, List.append_nil,
    List.append_assoc, List.cons_append]

theorem optMap_isSome {α β : Type} (f : α → β) (x : Option α) :
    (x.map f).isSome = x.isSome := by
  cases x <;> rfl

/-- A plan_trip call that supplies no optional argument: every `None`-marker
argument is unset and `search_for_arrival` keeps its `False` default. -/
def planTripUnsetArgs : PlanTripArgs :=
  ⟨none, none, none, none, none, none, none, none, none, none,
   none, none, none, none, none, none, false, none, none, none,
   none, none, none, none, none, none, none, none, none, none,
   none, none, none, none, none, none, none, none, none, none,
   none, none, none, none, none, none, none, none, none⟩

set_option maxHeartbeats 3200000 in
/-- Claim C2 (amended): in every modelled endpoint call, a parameter whose
unset marker is `None` appears as a key exactly when the caller supplied a
value — in particular it never appears when left unset — and no parameter
is ever serialized with a `None` value.  (Parameters with a non-`None`
default, such as get_journey's `omitCrowdForecast`, are serialized even
when the caller leaves them unset, and plan_trip's `searchForArrival` is
serialized only when true; see the counterexample.) -/
theorem endpoint_param_omission :
    (∀ (query country_codes : Option String) (include_non_plannable : Option Bool)
        (limit : Option Int),
      let ps := stations_list_v2_params query country_codes include_non_plannable limit
      ("q" ∈ paramKeys ps ↔ query.isSome) ∧
      ("countryCodes" ∈ paramKeys ps ↔ country_codes.isSome) ∧
      ("includeNonPlannableStations" ∈ paramKeys ps ↔ include_non_plannable.isSome) ∧
      ("limit" ∈ paramKeys ps ↔ limit.isSome) ∧
      (∀ e ∈ ps, ¬ e.2 = PyVal.pynone)) ∧
    (∀ (train : Option Int)
        (journey_id date_time departure_uic_code transfer_uic_code arrival_uic_code :
          Option String) (omit_crowd_forecast : Bool),
      let ps := get_journey_params train journey_id date_time departure_uic_code
        transfer_uic_code arrival_uic_code omit_crowd_forecast
      ("train" ∈ paramKeys ps ↔ train.isSome) ∧
      ("id" ∈ paramKeys ps ↔ journey_id.isSome) ∧
      ("dateTime" ∈ paramKeys ps ↔ date_time.isSome) ∧
      ("departureUicCode" ∈ paramKeys ps ↔ departure_uic_code.isSome) ∧
      ("transferUicCode" ∈ paramKeys ps ↔ transfer_uic_code.isSome) ∧
      ("arrivalUicCode" ∈ paramKeys ps ↔ arrival_uic_code.isSome) ∧
      (∀ e ∈ ps, ¬ e.2 = PyVal.pynone)) ∧
    (∀ (is_active : Option Bool) (disruption_type : Option String),
      let ps := disruptions_list_params is_active disruption_type
      ("isActive" ∈ paramKeys ps ↔ is_active.isSome) ∧
      ("type" ∈ paramKeys ps ↔ disruption_type.isSome) ∧
      (∀ e ∈ ps, ¬ e.2 = PyVal.pynone)) ∧
    (∀ a : PlanTripArgs,
      let ps := plan_trip_params a
      ("fromStation" ∈ paramKeys ps ↔ a.from_station.isSome) ∧
      ("toStation" ∈ paramKeys ps ↔ a.to_station.isSome) ∧
      ("originUicCode" ∈ paramKeys ps ↔ a.origin_uic_code.isSome) ∧
      ("originLat" ∈ paramKeys ps ↔ a.origin_lat.isSome) ∧
      ("originLng" ∈ paramKeys ps ↔ a.origin_lng.isSome) ∧
      ("originName" ∈ paramKeys ps ↔ a.origin_name.isSome) ∧
      ("destinationUicCode" ∈ paramKeys ps ↔ a.destination_uic_code.isSome) ∧
      ("destinationLat" ∈ paramKeys ps ↔ a.destination_lat.isSome) ∧
      ("destinationLng" ∈ paramKeys ps ↔ a.destination_lng.isSome) ∧
      ("destinationName" ∈ paramKeys ps ↔ a.destination_name.isSome) ∧
      ("viaStation" ∈ paramKeys ps ↔ a.via_station.isSome) ∧
      ("viaUicCode" ∈ paramKeys ps ↔ a.via_uic_code.isSome) ∧
      ("viaLat" ∈ paramKeys ps ↔ a.via_lat.isSome) ∧
      ("viaLng" ∈ paramKeys ps ↔ a.via_lng.isSome) ∧
      ("viaWaitTime" ∈ paramKeys ps ↔ a.via_wait_time.isSome) ∧
      ("dateTime" ∈ paramKeys ps ↔ a.date_time.isSome) ∧
      ("searchForArrival" ∈ paramKeys ps ↔ a.search_for_arrival = true) ∧
      ("lang" ∈ paramKeys ps ↔ a.language.isSome) ∧
      ("context" ∈ paramKeys ps ↔ a.context.isSome) ∧
      ("addChangeTime" ∈ paramKeys ps ↔ a.add_change_time.isSome) ∧
      ("passing" ∈ paramKeys ps ↔ a.passing.isSome) ∧
      ("localTrainsOnly" ∈ paramKeys ps ↔ a.local_trains_only.isSome) ∧
      ("excludeHighSpeedTrains" ∈ paramKeys ps ↔ a.exclude_high_speed_trains.isSome) ∧
      ("excludeTrainsWithReservationRequired" ∈ paramKeys ps ↔
        a.exclude_trains_with_reservation_required.isSome) ∧
      ("travelRequestType" ∈ paramKeys ps ↔ a.travel_request_type.isSome) ∧
      ("filterTransportMode" ∈ paramKeys ps ↔ a.filter_transport_mode.isSome) ∧
      ("disabledTransportModalities" ∈ paramKeys ps ↔
        a.disabled_transport_modalities.isSome) ∧
      ("originWalk" ∈ paramKeys ps ↔ a.origin_walk.isSome) ∧
      ("originBike" ∈ paramKeys ps ↔ a.origin_bike.isSome) ∧
      ("originCar" ∈ paramKeys ps ↔ a.origin_car.isSome) ∧
      ("destinationWalk" ∈ paramKeys ps ↔ a.destination_walk.isSome) ∧
      ("destinationBike" ∈ paramKeys ps ↔ a.destination_bike.isSome) ∧
      ("destinationCar" ∈ paramKeys ps ↔ a.destination_car.isSome) ∧
      ("firstMileModality" ∈ paramKeys ps ↔ a.first_mile_modality.isSome) ∧
      ("lastMileModality" ∈ paramKeys ps ↔ a.last_mile_modality.isSome) ∧
      ("entireTripModality" ∈ paramKeys ps ↔ a.entire_trip_modality.isSome) ∧
      ("travelAssistance" ∈ paramKeys ps ↔ a.travel_assistance.isSome) ∧
      ("searchForAccessibleTrip" ∈ paramKeys ps ↔ a.search_for_accessible_trip.isSome) ∧
      ("accessibilityEquipment1" ∈ paramKeys ps ↔ a.accessibility_equipment1.isSome) ∧
      ("accessibilityEquipment2" ∈ paramKeys ps ↔ a.accessibility_equipment2.isSome) ∧
      ("product" ∈ paramKeys ps ↔ a.product.isSome) ∧
      ("discount" ∈ paramKeys ps ↔ a.discount.isSome) ∧
      ("travelClass" ∈ paramKeys ps ↔ a.travel_class.isSome) ∧
      ("nsr" ∈ paramKeys ps ↔ a.nsr.isSome) ∧
      ("departure" ∈ paramKeys ps ↔ a.departure.isSome) ∧
      ("shorterChange" ∈ paramKeys ps ↔ a.shorter_change.isSome) ∧
      ("minimalChangeTime" ∈ paramKeys ps ↔ a.minimal_change_time.isSome) ∧
      ("originAccessible" ∈ paramKeys ps ↔ a.origin_accessible.isSome) ∧
      ("travelAssistanceTransferTime" ∈ paramKeys ps ↔
        a.travel_assistance_transfer_time.isSome) ∧
      (∀ e ∈ ps, ¬ e.2 = PyVal.pynone)) := by
  refine ⟨?_, ?_, ?_, ?_⟩
  · intro query country_codes include_non_plannable limit
    refine ⟨?_, ?_, ?_, ?_, ?_⟩ <;>
      [skip; skip; skip; skip;
       (intro e he
        rw [stations_list_v2_params_eq] at he
        simp only [List.append_assoc, List.mem_append] at he
        rcases he with h | h | h | h <;>
          (rcases mem_optEntry_map h with ⟨x, hx, rfl⟩; simp))] <;>
      (rw [stations_list_v2_params_eq]
       simp [paramKeys_append, mem_paramKeys_optEntry, List.mem_append, optMap_isSome])
  · intro train journey_id date_time departure_uic_code transfer_uic_code
      arrival_uic_code omit_crowd_forecast
    refine ⟨?_, ?_, ?_, ?_, ?_, ?_, ?_⟩ <;>
      [skip; skip; skip; skip; skip; skip;
       (intro e he
        rw [get_journey_params_eq] at he
        simp only [List.append_assoc, List.mem_cons, List.mem_append] at he
        rcases he with rfl | h | h | h | h | h | h
        · simp
        all_goals (rcases mem_optEntry_map h with ⟨x, hx, rfl⟩; simp))] <;>
      (rw [get_journey_params_eq]
       simp [paramKeys_cons, paramKeys_append, mem_paramKeys_optEntry,
         List.mem_cons, List.mem_append, optMap_isSome])
  · intro is_active disruption_type
    refine ⟨?_, ?_, ?_⟩ <;>
      [skip; skip;
       (intro e he
        rw [disruptions_list_params_eq] at he
        simp only [List.mem_append] at he
        rcases he with h | h <;>
          (rcases mem_optEntry_map h with ⟨x, hx, rfl⟩; simp))] <;>
      (rw [disruptions_list_params_eq]
       simp [paramKeys_append, mem_paramKeys_optEntry, List.mem_append, optMap_isSome])
  · intro a
    refine ⟨?_, ?_, ?_, ?_, ?_, ?_, ?_, ?_, ?_, ?_, ?_, ?_, ?_, ?_, ?_, ?_, ?_,
      ?_, ?_, ?_, ?_, ?_, ?_, ?_, ?_, ?_, ?_, ?_, ?_, ?_, ?_, ?_, ?_, ?_, ?_,
      ?_, ?_, ?_, ?_, ?_, ?_, ?_, ?_, ?_, ?_, ?_, ?_, ?_, ?_, ?_⟩ <;>
      [skip; skip; skip; skip; skip; skip; skip; skip; skip; skip; skip; skip;
       skip; skip; skip; skip;
       (cases h : a.search_for_arrival <;>
        (rw [plan_trip_params_eq]
         simp [paramKeys_append, mem_paramKeys_optEntry, List.mem_append,
           optMap_isSome, h]));
       skip; skip; skip; skip; skip; skip; skip; skip; skip; skip; skip; skip;
       skip; skip; skip; skip; skip; skip; skip; skip; skip; skip; skip; skip;
       skip; skip; skip; skip; skip; skip; skip; skip;
       (intro e he; exact build_params_clean _ e he)] <;>
      (rw [plan_trip_params_eq]
       simp [paramKeys_append, mem_paramKeys_optEntry, List.mem_append, optMap_isSome])

/-- Counterexample to C2 as stated: `get_journey` with every optional
argument left unset still serializes the key `omitCrowdForecast` (with its
`False` default), because that parameter's unset marker is a plain boolean
default, not `None`; so an optional parameter left unset can appear in the
outgoing query. -/
theorem endpoint_param_omission_cex :
    get_journey_params none none none none none none false =
      [("omitCrowdForecast", PyVal.bool false)] ∧
    "omitCrowdForecast" ∈
      paramKeys (get_journey_params none none none none none none false) := by
  exact ⟨rfl, by decide⟩

/-- Witness for C2 (amended): a supplied `q` value is serialized with a
non-`None` value, and an unset `q` does not appear as a key. -/
theorem endpoint_param_omission_witness :
    ¬ ("q", PyVal.str "amsterdam").2 = PyVal.pynone ∧
    ¬ "q" ∈ paramKeys (stations_list_v2_params none none none none) := by
  constructor
  · exact (endpoint_param_omission.1 (some "amsterdam") none none none).2.2.2.2
      ("q", PyVal.str "amsterdam") (by decide)
  · intro hmem
    have h := (endpoint_param_omission.1 none none none none).1
    rw [h] at hmem
    simp at hmem

set_option maxHeartbeats 1600000 in
/-- Claim C3 (amended): every parameter whose unset marker is `None` is
serialized whenever the caller supplies a value, including boolean `False`
and numeric `0` — the implementation tracks `is not None`, not truthiness —
with one exception: plan_trip's `search_for_arrival` has a `False` default
and is serialized (as true) only when it is `True`; an explicit `False` is
indistinguishable from unset and omitted (see the counterexample). -/
theorem falsy_param_serialization :
    (∀ (a : PlanTripArgs) (b : Bool),
      a.passing = some b → ("passing", PyVal.bool b) ∈ plan_trip_params a) ∧
    (∀ (a : PlanTripArgs) (n : Int),
      a.via_wait_time = some n → ("viaWaitTime", PyVal.int n) ∈ plan_trip_params a) ∧
    (∀ a : PlanTripArgs, a.search_for_arrival = true →
      ("searchForArrival", PyVal.bool true) ∈ plan_trip_params a) ∧
    (∀ a : PlanTripArgs, a.search_for_arrival = false →
      ¬ "searchForArrival" ∈ paramKeys (plan_trip_params a)) ∧
    (∀ (train : Option Int)
        (journey_id date_time departure_uic_code transfer_uic_code arrival_uic_code :
          Option String) (omit_crowd_forecast : Bool) (n : Int),
      train = some n →
      ("train", PyVal.int n) ∈ get_journey_params train journey_id date_time
        departure_uic_code transfer_uic_code arrival_uic_code omit_crowd_forecast) ∧
    (∀ (is_active : Option Bool) (disruption_type : Option String) (b : Bool),
      is_active = some b →
      ("isActive", PyVal.bool b) ∈ disruptions_list_params is_active disruption_type) ∧
    (∀ (query country_codes : Option String) (include_non_plannable : Option Bool)
        (limit : Option Int) (b : Bool),
      include_non_plannable = some b →
      ("includeNonPlannableStations", PyVal.bool b) ∈
        stations_list_v2_params query country_codes include_non_plannable limit) := by
  refine ⟨?_, ?_, ?_, ?_, ?_, ?_, ?_⟩
  · intro a b hb
    rw [plan_trip_params_eq]
    simp [hb, optEntry, List.mem_append]
  · intro a n hn
    rw [plan_trip_params_eq]
    simp [hn, optEntry, List.mem_append]
  · intro a h
    rw [plan_trip_params_eq]
    simp [h, optEntry, List.mem_append]
  · intro a h
    rw [plan_trip_params_eq]
    simp [h, paramKeys_append, mem_paramKeys_optEntry, List.mem_append, optMap_isSome]
  · intro train journey_id date_time departure_uic_code transfer_uic_code
      arrival_uic_code omit_crowd_forecast n hn
    rw [get_journey_params_eq]
    simp [hn, optEntry, List.mem_append]
  · intro is_active disruption_type b hb
    rw [disruptions_list_params_eq]
    simp [hb, optEntry, List.mem_append]
  · intro query country_codes include_non_plannable limit b hb
    rw [stations_list_v2_params_eq]
    simp [hb, optEntry, List.mem_append]

/-- Counterexample to C3 as stated: a plan_trip call with
`search_for_arrival` explicitly `False` (the source passes
`search_for_arrival or None` to `_set`, which collapses `False` to `None`)
does not include the `searchForArrival` key, so an explicitly-supplied
falsy value is dropped rather than serialized. -/
theorem falsy_param_serialization_cex :
    ¬ "searchForArrival" ∈ paramKeys (plan_trip_params
      { planTripUnsetArgs with from_station := some "ASD", to_station := some "UT" }) := by
  decide

/-- Witness for C3 (amended): an explicitly supplied `passing=False` is
serialized with the literal false value. -/
theorem falsy_param_serialization_witness :
    ("passing", PyVal.bool false) ∈
      plan_trip_params { planTripUnsetArgs with passing := some false } := by
  exact falsy_param_serialization.1 { planTripUnsetArgs with passing := some false } false rfl

/-- A header dictionary in insertion order. -/
abbrev Headers := List (String × String)

/-- The names of the headers of a request. -/
def headerKeys (hs : Headers) : List String := hs.map Prod.fst

/-- Headers built by `DisruptionsAPI.list` (src/py_ns/api/disruptions.py
lines 48-50): the language parameter is sent as `Accept-Language`. -/
def disruptions_list_headers (language : Option String) : Headers :=
  match language with
  | none => []
  | some l => [("Accept-Language", l)]

/-- Headers built by `DisruptionsAPI.get` (lines 69-71). -/
def disruptions_get_headers (language : Option String) : Headers :=
  match language with
  | none => []
  | some l => [("Accept-Language", l)]

/-- Headers built by `DisruptionsAPI.list_for_station` (lines 91-93). -/
def disruptions_list_for_station_headers (language : Option String) : Headers :=
  match language with
  | none => []
  | some l => [("Accept-Language", l)]

/-- Headers built by `DisruptionsAPI.list_personal` (lines 109-112): the
push id is sent as `x-ns-push-id`. -/
def disruptions_list_personal_headers (push_id : String) : Headers :=
  [("x-ns-push-id", push_id)]

/-- Headers built by `DisruptionsAPI.sync_saved_trips` (lines 126-130): the
sync api key is sent as `x-api-key`. -/
def sync_saved_trips_headers (api_key : String) : Headers :=
  [("x-api-key", api_key)]

/-- Headers built by `TravelAPI.plan_trip` (src/py_ns/api/travel.py lines
377-379): the bearer token is sent as `Authorization`. -/
def plan_trip_headers (authorization : Option String) : Headers :=
  match authorization with
  | none => []
  | some a => [("Authorization", a)]

/-- Headers built by `TravelAPI.get_trip` (lines 434-438): the bearer token
is sent as `Authorization` and the language parameter as a `lang` header. -/
def get_trip_headers (authorization language : Option String) : Headers :=
  let hs : Headers :=
    match authorization with
    | none => []
    | some a => [("Authorization", a)]
  match language with
  | none => hs
  | some l => hs ++ [("lang", l)]

/-- Headers built by `TravelAPI.get_booked_trip` (lines 474-476):
`Authorization` is required; the language parameter is a `lang` header. -/
def get_booked_trip_headers (authorization : String) (language : Option String) : Headers :=
  let hs : Headers := [("Authorization", authorization)]
  match language with
  | none => hs
  | some l => hs ++ [("lang", l)]

/-- Headers built by the deprecated `TravelAPI.list_disruptions`
(src/py_ns/api/travel.py lines 710-712): although it hits the
reisinformatie-api endpoint, it too sends the language parameter as
`Accept-Language`. -/
def list_disruptions_headers (language : Option String) : Headers :=
  match language with
  | none => []
  | some l => [("Accept-Language", l)]

/-- Counterexample to C8 as stated: the language parameter does not map to
one fixed header name across all endpoint operations — `DisruptionsAPI.list`
sends it as `Accept-Language` while `TravelAPI.get_trip` sends it as
`lang`. -/
theorem header_name_mapping_cex :
    disruptions_list_headers (some "nl") = [("Accept-Language", "nl")] ∧
    get_trip_headers none (some "nl") = [("lang", "nl")] ∧
    ¬ ("Accept-Language" : String) = "lang" :=
  ⟨rfl, rfl, by decide⟩

/-- Claim C8 (amended): the push-id, bearer-authorization and sync-api-key
parameters each map to exactly one fixed header name (`x-ns-push-id`,
`Authorization`, `x-api-key`) across all operations that accept them; the
language parameter, where it is sent as a header, maps to `Accept-Language`
uniformly across the Disruptions operations and the deprecated
`TravelAPI.list_disruptions`, and to `lang` uniformly across `get_trip` and
`get_booked_trip`; and every request carries at most one instance of each
header. -/
theorem header_name_mapping :
    (∀ l, disruptions_list_headers l = disruptions_get_headers l ∧
      disruptions_list_headers l = disruptions_list_for_station_headers l ∧
      disruptions_list_headers l = list_disruptions_headers l) ∧
    (∀ l, disruptions_list_headers (some l) = [("Accept-Language", l)]) ∧
    disruptions_list_headers none = [] ∧
    (∀ p, disruptions_list_personal_headers p = [("x-ns-push-id", p)]) ∧
    (∀ k, sync_saved_trips_headers k = [("x-api-key", k)]) ∧
    (∀ a, plan_trip_headers (some a) = [("Authorization", a)]) ∧
    (∀ a l, get_trip_headers (some a) (some l) = [("Authorization", a), ("lang", l)]) ∧
    (∀ a l, get_booked_trip_headers a (some l) = [("Authorization", a), ("lang", l)]) ∧
    (∀ a l, (headerKeys (get_trip_headers a l)).Nodup) ∧
    (∀ a l, (headerKeys (get_booked_trip_headers a l)).Nodup) ∧
    (∀ l, (headerKeys (disruptions_list_headers l)).Nodup) ∧
    (∀ p, (headerKeys (disruptions_list_personal_headers p)).Nodup) ∧
    (∀ k, (headerKeys (sync_saved_trips_headers k)).Nodup) ∧
    (∀ a, (headerKeys (plan_trip_headers a)).Nodup) ∧
    (∀ l, (headerKeys (list_disruptions_headers l)).Nodup) := by
  refine ⟨?_, fun l => rfl, rfl, fun p => rfl, fun k => rfl, fun a => rfl,
    fun a l => rfl, fun a l => rfl, ?_, ?_, ?_, fun p => by simp [headerKeys, disruptions_list_personal_headers],
    fun k => by simp [headerKeys, sync_saved_trips_headers], ?_, ?_⟩
  · intro l
    cases l <;> exact ⟨rfl, rfl, rfl⟩
  · intro a l
    cases a <;> cases l <;> simp [headerKeys, get_trip_headers]
  · intro a l
    cases l <;> simp [headerKeys, get_booked_trip_headers]
  · intro l
    cases l <;> simp [headerKeys, disruptions_list_headers]
  · intro a
    cases a <;> simp [headerKeys, plan_trip_headers]
  · intro l
    cases l <;> simp [headerKeys, list_disruptions_headers]

/-- Warning text for the deprecated `departure` parameter
(src/py_ns/api/travel.py lines 290-295). -/
def deprecation_msg_departure : String :=
  "The \x27departure\x27 parameter is deprecated. Use \x27search_for_arrival\x27 instead."

/-- Warning text for the deprecated `shorter_change` parameter (lines
296-302). -/
def deprecation_msg_shorter_change : String :=
  "The \x27shorter_change\x27 parameter is deprecated and has no effect. NS removed this functionality."

/-- Warning text for the deprecated `minimal_change_time` parameter (lines
303-309). -/
def deprecation_msg_minimal_change_time : String :=
  "The \x27minimal_change_time\x27 parameter is deprecated. Use \x27add_change_time\x27 instead."

/-- Warning text for the deprecated `origin_accessible` parameter (lines
310-316). -/
def deprecation_msg_origin_accessible : String :=
  "The \x27origin_accessible\x27 parameter is deprecated. Use \x27travel_assistance\x27 instead."

/-- Warning text for the deprecated `travel_assistance_transfer_time`
parameter (lines 317-323). -/
def deprecation_msg_travel_assistance_transfer_time : String :=
  "The \x27travel_assistance_transfer_time\x27 parameter is deprecated. Use \x27add_change_time\x27 instead."

/-- Warning text for the deprecated `source_ctx_recon` parameter of
`get_trip` (lines 418-424). -/
def deprecation_msg_source_ctx_recon : String :=
  "The \x27source_ctx_recon\x27 parameter is deprecated. Use the sourceCtxRecon field in the Trip response instead."

/-- The deprecation notices emitted by `TravelAPI.plan_trip` (lines
290-323): one independent `warnings.warn(..., DeprecationWarning)` per
deprecated parameter that `is not None`, in source order. -/
def plan_trip_deprecation_warnings (departure shorter_change : Option Bool)
    (minimal_change_time : Option Int) (origin_accessible : Option Bool)
    (travel_assistance_transfer_time : Option Int) : List String :=
  (match departure with
    | none => [] | some _ => [deprecation_msg_departure]) ++
  (match shorter_change with
    | none => [] | some _ => [deprecation_msg_shorter_change]) ++
  (match minimal_change_time with
    | none => [] | some _ => [deprecation_msg_minimal_change_time]) ++
  (match origin_accessible with
    | none => [] | some _ => [deprecation_msg_origin_accessible]) ++
  (match travel_assistance_transfer_time with
    | none => [] | some _ => [deprecation_msg_travel_assistance_transfer_time])

/-- The deprecation notices emitted by `TravelAPI.get_trip` (lines
418-424). -/
def get_trip_deprecation_warnings (source_ctx_recon : Option Bool) : List String :=
  match source_ctx_recon with
  | none => []
  | some _ => [deprecation_msg_source_ctx_recon]

/-- The `_STATIONS_DEPRECATION.format(method=...)` template of
src/py_ns/api/travel.py lines 35-38. -/
def stations_deprecation (method : String) : String :=
  method ++ " is deprecated by NS. Use the dedicated Stations API at https://gateway.apiportal.ns.nl/nsapp-stations instead."

/-- The `_DISRUPTIONS_DEPRECATION.format(method=..., replacement=...)`
template of src/py_ns/api/travel.py lines 31-34. -/
def disruptions_deprecation (method replacement : String) : String :=
  method ++ " is deprecated by NS. Use " ++ replacement ++
    " instead, which uses the dedicated Disruptions API (https://gateway.apiportal.ns.nl/disruptions)."

/-- The single notice emitted by the deprecated `TravelAPI.get_stations`. -/
def get_stations_warnings : List String :=
  [stations_deprecation "get_stations()"]

/-- The single notice emitted by the deprecated
`TravelAPI.get_nearest_stations`. -/
def get_nearest_stations_warnings : List String :=
  [stations_deprecation "get_nearest_stations()"]

/-- The single notice emitted by the deprecated `TravelAPI.get_calamities`. -/
def get_calamities_warnings : List String :=
  [disruptions_deprecation "get_calamities()"
    "client.disruptions.list(disruption_type=DisruptionType.calamity)"]

/-- The single notice emitted by the deprecated `TravelAPI.list_disruptions`. -/
def list_disruptions_warnings : List String :=
  [disruptions_deprecation "list_disruptions()" "client.disruptions.list()"]

/-- The single notice emitted by the deprecated
`TravelAPI.list_station_disruptions`. -/
def list_station_disruptions_warnings : List String :=
  [disruptions_deprecation "list_station_disruptions()"
    "client.disruptions.list_for_station()"]

/-- The single notice emitted by the deprecated `TravelAPI.get_disruption`. -/
def get_disruption_warnings : List String :=
  [disruptions_deprecation "get_disruption()" "client.disruptions.get()"]

/-- The observable outcome of a `plan_trip` call up to the HTTP request:
the notices emitted first (lines 290-323) and the query dictionary built
afterwards (lines 325-375).  The two components are independent functions
of the arguments: emitting a notice cannot change the request, the return
value, or raise. -/
def plan_trip_call (a : PlanTripArgs) : List String × Params :=
  (plan_trip_deprecation_warnings a.departure a.shorter_change
    a.minimal_change_time a.origin_accessible a.travel_assistance_transfer_time,
   plan_trip_params a)

set_option maxHeartbeats 1600000 in
/-- Claim C5: each deprecated parameter that is supplied emits exactly one
deprecation notice (n supplied deprecated parameters emit n independent
notices, none when none is supplied), each deprecated method emits exactly
one notice, the request is still performed with the deprecated parameter's
value passed through verbatim into the query, and emission is a side
channel independent of the request and return value. -/
theorem deprecated_params_passthrough :
    (∀ (departure shorter_change : Option Bool) (minimal_change_time : Option Int)
        (origin_accessible : Option Bool) (travel_assistance_transfer_time : Option Int),
      (plan_trip_deprecation_warnings departure shorter_change minimal_change_time
        origin_accessible travel_assistance_transfer_time).length =
      (if departure.isSome then 1 else 0) + (if shorter_change.isSome then 1 else 0) +
      (if minimal_change_time.isSome then 1 else 0) +
      (if origin_accessible.isSome then 1 else 0) +
      (if travel_assistance_transfer_time.isSome then 1 else 0)) ∧
    (∀ b : Bool, plan_trip_deprecation_warnings (some b) none none none none =
      [deprecation_msg_departure]) ∧
    (∀ b : Bool, plan_trip_deprecation_warnings none (some b) none none none =
      [deprecation_msg_shorter_change]) ∧
    (∀ n : Int, plan_trip_deprecation_warnings none none (some n) none none =
      [deprecation_msg_minimal_change_time]) ∧
    (∀ b : Bool, plan_trip_deprecation_warnings none none none (some b) none =
      [deprecation_msg_origin_accessible]) ∧
    (∀ n : Int, plan_trip_deprecation_warnings none none none none (some n) =
      [deprecation_msg_travel_assistance_transfer_time]) ∧
    (∀ (a : PlanTripArgs) (b : Bool),
      a.departure = some b → ("departure", PyVal.bool b) ∈ plan_trip_params a) ∧
    (∀ (a : PlanTripArgs) (b : Bool),
      a.shorter_change = some b → ("shorterChange", PyVal.bool b) ∈ plan_trip_params a) ∧
    (∀ (a : PlanTripArgs) (n : Int),
      a.minimal_change_time = some n →
      ("minimalChangeTime", PyVal.int n) ∈ plan_trip_params a) ∧
    (∀ (a : PlanTripArgs) (b : Bool),
      a.origin_accessible = some b →
      ("originAccessible", PyVal.bool b) ∈ plan_trip_params a) ∧
    (∀ (a : PlanTripArgs) (n : Int),
      a.travel_assistance_transfer_time = some n →
      ("travelAssistanceTransferTime", PyVal.int n) ∈ plan_trip_params a) ∧
    (∀ b : Bool, (get_trip_deprecation_warnings (some b)).length = 1) ∧
    (∀ (ctx_recon : String) (date : Option String) (travel_request_type : String)
        (product discount : Option String) (travel_class nsr : Option Int) (b : Bool),
      ("sourceCtxRecon", PyVal.bool b) ∈ get_trip_params ctx_recon date
        travel_request_type product discount travel_class nsr (some b)) ∧
    (plan_trip_deprecation_warnings none none none none none = [] ∧
      get_trip_deprecation_warnings none = []) ∧
    (get_stations_warnings.length = 1 ∧ get_nearest_stations_warnings.length = 1 ∧
      get_calamities_warnings.length = 1 ∧ list_disruptions_warnings.length = 1 ∧
      list_station_disruptions_warnings.length = 1 ∧ get_disruption_warnings.length = 1) ∧
    (∀ a : PlanTripArgs, plan_trip_call a =
      (plan_trip_deprecation_warnings a.departure a.shorter_change
        a.minimal_change_time a.origin_accessible a.travel_assistance_transfer_time,
       plan_trip_params a)) := by
  refine ⟨?_, fun b => rfl, fun b => rfl, fun n => rfl, fun b => rfl, fun n => rfl,
    ?_, ?_, ?_, ?_, ?_, fun b => rfl, ?_, ⟨rfl, rfl⟩,
    ⟨rfl, rfl, rfl, rfl, rfl, rfl⟩, fun a => rfl⟩
  · intro departure shorter_change minimal_change_time origin_accessible
      travel_assistance_transfer_time
    cases departure <;> cases shorter_change <;> cases minimal_change_time <;>
      cases origin_accessible <;> cases travel_assistance_transfer_time <;> rfl
  · intro a b hb
    rw [plan_trip_params_eq]
    simp [hb, optEntry, List.mem_append]
  · intro a b hb
    rw [plan_trip_params_eq]
    simp [hb, optEntry, List.mem_append]
  · intro a n hn
    rw [plan_trip_params_eq]
    simp [hn, optEntry, List.mem_append]
  · intro a b hb
    rw [plan_trip_params_eq]
    simp [hb, optEntry, List.mem_append]
  · intro a n hn
    rw [plan_trip_params_eq]
    simp [hn, optEntry, List.mem_append]
  · intro ctx_recon date travel_request_type product discount travel_class nsr b
    rw [get_trip_params_eq]
    simp [optEntry, List.mem_append]

/-- Witness for C5: a plan_trip call that supplies only the deprecated
`departure=True` emits exactly the one departure notice and still sends
`departure=true` in the query. -/
theorem deprecated_params_passthrough_witness :
    plan_trip_deprecation_warnings (some true) none none none none =
      [deprecation_msg_departure] ∧
    ("departure", PyVal.bool true) ∈
      plan_trip_params { planTripUnsetArgs with departure := some true } := by
  constructor
  · exact deprecated_params_passthrough.2.1 true
  · exact deprecated_params_passthrough.2.2.2.2.2.2.1
      { planTripUnsetArgs with departure := some true } true rfl

/-- The state of the connection pool owned by the transport: acquired at
construction, released by `close`. -/
structure PoolState where
  closed : Bool
deriving DecidableEq, Repr

/-- `HttpTransport.close` (src/py_ns/_base/transport.py lines 75-76):
closes the underlying connection pool. -/
def transport_close (s : PoolState) : PoolState := ⟨true⟩

/-- `HttpTransport.__exit__(self, *args)` (lines 81-82): calls `close`
unconditionally, whatever exception arguments (type, value, traceback) the
runtime passes; `args` models that argument tuple. -/
def transport_exit (s : PoolState) (args : List String) : PoolState :=
  transport_close s

/-- `NSClient.close` (src/py_ns/client.py lines 36-38): closes the shared
transport. -/
def client_close (s : PoolState) : PoolState := transport_close s

/-- `NSClient.__exit__(self, *args)` (lines 43-44): calls `close`
unconditionally for any exception arguments. -/
def client_exit (s : PoolState) (args : List String) : PoolState :=
  client_close s

/-- How a with-block body finished: normally, or by raising. -/
inductive BlockOutcome where
  | normal
  | raised (exc : String)

/-- Scoped acquisition of the client, following the language's
with-statement contract (spec glossary: a guaranteed release on every exit
path): `__enter__` returns the client unchanged and `__exit__` runs whether
the body finished normally or raised, receiving the exception arguments in
the latter case. -/
def with_client (s : PoolState) (outcome : BlockOutcome) : PoolState :=
  match outcome with
  | .normal => client_exit s []
  | .raised e => client_exit s [e]

/-- Claim C9: under scoped acquisition, the close operation runs on every
exit path — `__exit__` is exactly `close` regardless of the exception
arguments, and the pool ends closed after both a normal and a raising
body. -/
theorem scoped_close_on_exit (s : PoolState) (args : List String)
    (o : BlockOutcome) (e : String) :
    transport_exit s args = transport_close s ∧
    (transport_exit s args).closed = true ∧
    client_exit s args = client_close s ∧
    (client_exit s args).closed = true ∧
    (with_client s o).closed = true ∧
    with_client s (.raised e) = client_close s := by
  refine ⟨rfl, rfl, rfl, rfl, ?_, rfl⟩
  cases o <;> rfl
